import Mathlib

/-!
Shallow embedding of the house-rental API backend (src/main.py, src/schemas.py).

Documents of the underlying document store are modelled as association lists
from field names to BSON-like values.  The mutable state visible to the
handlers (the `property` and `contactmessage` collections, the ObjectId
counter and the upload directory) is gathered in the structure `Sys`; each
HTTP handler of src/main.py becomes a pure function from `Sys` and the
request parameters to the new `Sys` and an `Except`-shaped response.

Numeric field values (`rent_price`, `area_sqft`) are modelled as integers:
no claim under consideration depends on fractional or rounding behaviour of
floats, only on signs and comparisons, which agree on integer values.
-/

/-- A BSON-like value stored in a document field. -/
inductive Value where
  | vStr (s : String)
  | vInt (n : Int)
  | vNull
  | vOid (n : Nat)
  | vTime (t : Nat)
deriving DecidableEq, Repr

/-- A document: an association list from field names to values
(mirroring a Python dict / BSON document, insertion ordered). -/
abbrev Doc : Type := List (String × Value)

/-- Look a field up in a document (first occurrence, as in a dict). -/
def lookupD (d : Doc) (k : String) : Option Value := List.lookup k d

/-- Semantics of `d[k] = v` on a Python dict / the `$set` of a single key in Mongo:
replace the first binding of `k` if present, append the key otherwise. -/
def setEntry {β : Type} : List (String × β) → String → β → List (String × β)
  | [], k, v => [(k, v)]
  | (k0, v0) :: t, k, v =>
      if k0 = k then (k, v) :: t else (k0, v0) :: setEntry t k v

/-- An uploaded file: original filename plus content bytes. -/
structure Img where
  filename : String
  content : List Nat
deriving DecidableEq

/-- The state the handlers act on: the ObjectId counter, the `property` and
`contactmessage` collections, and the upload directory (filename to bytes). -/
structure Sys where
  nextId : Nat
  props : List Doc
  contacts : List Doc
  uploads : List (String × List Nat)
deriving DecidableEq

def emptySys : Sys := ⟨0, [], [], []⟩

/-- Errors raised by the handlers: `HTTPException(status_code, detail)`. -/
inductive Err where
  | http (code : Nat) (msg : String)
deriving DecidableEq

def notFoundErr : Err := .http 404 ("Property not found")

def conflictErr : Err := .http 400 ("property_id must be unique")

/-- Note: `bson.ObjectId(s)` accepts exactly 24-character hexadecimal strings
(byte inputs do not arise here); otherwise it raises `InvalidId`. -/
def isHexDigit (c : Char) : Bool :=
  c.isDigit || (('a' ≤ c) && (c ≤ 'f')) || (('A' ≤ c) && (c ≤ 'F'))

def hexDigitVal (c : Char) : Nat :=
  if c.isDigit then c.toNat - 48
  else if ('a' ≤ c) && (c ≤ 'f') then c.toNat - 87
  else c.toNat - 55

def hexToNat (cs : List Char) : Nat :=
  cs.foldl (fun a c => a * 16 + hexDigitVal c) 0

/-- Model of `ObjectId(prop_id)` as an option: `some` of the numeric value on valid
24-hex-digit syntax, `none` where the constructor would raise. -/
def parseObjectId (s : String) : Option Nat :=
  if s.length = 24 && s.data.all isHexDigit then some (hexToNat s.data) else none

def hexDigitChar (n : Nat) : Char :=
  if n < 10 then Char.ofNat (48 + n) else Char.ofNat (87 + n)

/-- Render `n` as exactly `fuel` lowercase hex digits (big-endian, zero
padded); `str(ObjectId)` is the 24-digit lowercase hex rendering. -/
def toHexAux : Nat → Nat → List Char
  | 0, _ => []
  | fuel + 1, n => toHexAux fuel (n / 16) ++ [hexDigitChar (n % 16)]

def oidToString (n : Nat) : String := String.mk (toHexAux 24 n)

/-- Semantics of `doc["_id"] = str(doc["_id"])`: response shaping applied by the handlers
before returning a document. -/
def stringifyId (d : Doc) : Doc :=
  d.map (fun kv =>
    if kv.1 = "_id" then
      (kv.1, match kv.2 with | .vOid n => .vStr (oidToString n) | v => v)
    else kv)

/-- The two query shapes used to resolve a property path parameter:
`{"_id": ObjectId(prop_id)}` or `{"property_id": prop_id}`. -/
inductive PropQuery where
  | byOid (n : Nat)
  | byPid (s : String)
deriving DecidableEq

/-- The `try: query = {"_id": ObjectId(prop_id)} except: query =
{"property_id": prop_id}` pattern shared by get/update/delete/contact: the
exception can only come from the `ObjectId` constructor, so the fallback
depends solely on identifier syntax. -/
def mkQuery (prop_id : String) : PropQuery :=
  match parseObjectId prop_id with
  | some n => .byOid n
  | none => .byPid prop_id

def matchesQuery : PropQuery → Doc → Bool
  | .byOid n, d => lookupD d ("_id") == some (.vOid n)
  | .byPid p, d => lookupD d ("property_id") == some (.vStr p)

/-- Semantics of `collection.find_one(query)`: first matching document or none. -/
def findDoc (props : List Doc) (q : PropQuery) : Option Doc :=
  props.find? (matchesQuery q)

/-- The single resolver implicit in all four property-addressing handlers. -/
def resolveProp (s : Sys) (prop_id : String) : Option Doc :=
  findDoc s.props (mkQuery prop_id)

/-- Handler for `GET /api/properties/{prop_id}` (src/main.py `get_property`). -/
def get_property (s : Sys) (prop_id : String) : Except Err Doc :=
  match resolveProp s prop_id with
  | none => .error notFoundErr
  | some d => .ok (stringifyId d)

/-- Handler for `POST /api/properties` (src/main.py `create_property`).  The image, when
supplied, is written to the upload directory *before* the `property_id`
uniqueness check; the document is inserted only when the check passes. -/
def create_property (s : Sys) (property_id title city locality : String)
    (rent_price area_sqft : Int) (furnishing contact_details owner_id : String)
    (image : Option Img) : Sys × Except Err Doc :=
  let saved : List (String × List Nat) × Option String :=
    match image with
    | none => (s.uploads, none)
    | some img =>
        let filename := property_id ++ ("_") ++ img.filename
        (setEntry s.uploads filename img.content, some (("/uploads/") ++ filename))
  let uploads1 := saved.1
  let image_url := saved.2
  let doc : Doc :=
    [(("property_id"), .vStr property_id), (("title"), .vStr title),
     (("city"), .vStr city), (("locality"), .vStr locality),
     (("rent_price"), .vInt rent_price), (("area_sqft"), .vInt area_sqft),
     (("furnishing"), .vStr furnishing), (("contact_details"), .vStr contact_details),
     (("image_url"), match image_url with | some u => .vStr u | none => .vNull),
     (("owner_id"), .vStr owner_id)]
  if (findDoc s.props (.byPid property_id)).isSome then
    ({ s with uploads := uploads1 }, .error conflictErr)
  else
    let stored : Doc := doc ++ [(("_id"), Value.vOid s.nextId)]
    ({ s with uploads := uploads1, props := s.props ++ [stored], nextId := s.nextId + 1 },
     .ok (stringifyId stored))

/-- One optional form field of the update handler: the singleton update it
contributes when supplied (`if value is not None: updates[key] = value`). -/
def chunk (name : String) (o : Option Value) : Doc :=
  match o with
  | some v => [(name, v)]
  | none => []

/-- Semantics of `$set` of an update document: set the keys left to right. -/
def applySet (d : Doc) (u : Doc) : Doc :=
  u.foldl (fun acc kv => setEntry acc kv.1 kv.2) d

/-- Semantics of `collection.update_one(query, {"$set": updates})`: apply the update to
the first matching document, leave the rest untouched. -/
def updateFirst (props : List Doc) (q : PropQuery) (u : Doc) : List Doc :=
  match props with
  | [] => []
  | d :: ds =>
      if matchesQuery q d then applySet d u :: ds else d :: updateFirst ds q u

inductive UpdateResp where
  | noChanges
  | doc (d : Doc)
deriving DecidableEq

/-- Rendering `str(value)` as used in the f-string for the update filename base. -/
def valueToString : Value → String
  | .vStr s => s
  | .vInt n => toString n
  | .vNull => ("None")
  | .vOid n => oidToString n
  | .vTime t => toString t

/-- Handler for `PUT /api/properties/{prop_id}` (src/main.py `update_property`). -/
def update_property (s : Sys) (prop_id : String)
    (title city locality : Option String) (rent_price area_sqft : Option Int)
    (furnishing contact_details : Option String)
    (image : Option Img) : Sys × Except Err UpdateResp :=
  let q := mkQuery prop_id
  match findDoc s.props q with
  | none => (s, .error notFoundErr)
  | some existing =>
      let updates : Doc :=
        chunk ("title") (title.map .vStr) ++ chunk ("city") (city.map .vStr) ++
        chunk ("locality") (locality.map .vStr) ++
        chunk ("rent_price") (rent_price.map .vInt) ++
        chunk ("area_sqft") (area_sqft.map .vInt) ++
        chunk ("furnishing") (furnishing.map .vStr) ++
        chunk ("contact_details") (contact_details.map .vStr)
      let saved : List (String × List Nat) × Doc :=
        match image with
        | none => (s.uploads, updates)
        | some img =>
            let base :=
              match lookupD existing ("property_id") with
              | some v => valueToString v
              | none => prop_id
            let filename := base ++ ("_") ++ img.filename
            (setEntry s.uploads filename img.content,
             updates ++ [(("image_url"), .vStr (("/uploads/") ++ filename))])
      let uploads1 := saved.1
      let updates1 := saved.2
      if updates1.isEmpty then
        ({ s with uploads := uploads1 }, .ok .noChanges)
      else
        let props1 := updateFirst s.props q updates1
        match findDoc props1 q with
        | none => ({ s with props := props1, uploads := uploads1 },
                   .error (.http 500 ("unreachable: updated document not found")))
        | some updated => ({ s with props := props1, uploads := uploads1 },
                           .ok (.doc (stringifyId updated)))

/-- Semantics of `collection.delete_one(query)`: remove the first matching document and
report the deleted count (0 or 1). -/
def deleteFirst (props : List Doc) (q : PropQuery) : List Doc × Nat :=
  match props with
  | [] => ([], 0)
  | d :: ds =>
      if matchesQuery q d then (ds, 1)
      else
        let r := deleteFirst ds q
        (d :: r.1, r.2)

inductive DeleteResp where
  | deleted
deriving DecidableEq

/-- Handler for `DELETE /api/properties/{prop_id}` (src/main.py `delete_property`). -/
def delete_property (s : Sys) (prop_id : String) : Sys × Except Err DeleteResp :=
  let q := mkQuery prop_id
  let r := deleteFirst s.props q
  if r.2 = 0 then ({ s with props := r.1 }, .error notFoundErr)
  else ({ s with props := r.1 }, .ok .deleted)

/-- The `ContactMessage` request body (src/schemas.py), as the handler
receives it after request parsing. -/
structure ContactPayload where
  property_id : String
  sender_id : String
  sender_name : String
  sender_email : String
  message : String
  created_at : Option Nat
deriving DecidableEq

/-- Semantics of `payload.model_dump()`: all declared fields, `None` rendered as null. -/
def contactDump (p : ContactPayload) : Doc :=
  [(("property_id"), .vStr p.property_id), (("sender_id"), .vStr p.sender_id),
   (("sender_name"), .vStr p.sender_name), (("sender_email"), .vStr p.sender_email),
   (("message"), .vStr p.message),
   (("created_at"), match p.created_at with | some t => .vTime t | none => .vNull)]

inductive ContactResp where
  | sent
deriving DecidableEq

/-- Handler for `POST /api/properties/{prop_id}/contact` (src/main.py `contact_owner`). -/
def contact_owner (s : Sys) (prop_id : String) (payload : ContactPayload) :
    Sys × Except Err ContactResp :=
  match findDoc s.props (mkQuery prop_id) with
  | none => (s, .error notFoundErr)
  | some _ =>
      let doc := contactDump payload ++ [(("_id"), Value.vOid s.nextId)]
      ({ s with contacts := s.contacts ++ [doc], nextId := s.nextId + 1 },
       .ok .sent)

/-!
The `q` and `city` filters of the list endpoint hand the caller-supplied
string to the document store as a case-insensitive regular expression
(`{"$regex": q, "$options": "i"}`).  The fragment of the PCRE pattern
language exercised here is modelled faithfully for patterns built from
literal characters and the metacharacter `.` (any character except a
newline); literals are compared case-folded, per the `i` option.
-/

inductive RChar where
  | lit (c : Char)
  | dot
deriving DecidableEq

/-- Compile a pattern within the modelled fragment: `.` is the any-character
metacharacter, every other character a (case-folded) literal. -/
def compilePattern (p : List Char) : List RChar :=
  p.map (fun c => if c = '.' then RChar.dot else RChar.lit c.toLower)

/-- Match a compiled pattern against a prefix of the (case-folded) text. -/
def matchHere : List RChar → List Char → Bool
  | [], _ => true
  | _ :: _, [] => false
  | RChar.lit c :: ps, x :: xs => (c == x) && matchHere ps xs
  | RChar.dot :: ps, x :: xs => (x != '\n') && matchHere ps xs

/-- Unanchored regex search: match at some position of the text. -/
def rsearch (ps : List RChar) : List Char → Bool
  | [] => matchHere ps []
  | x :: t => matchHere ps (x :: t) || rsearch ps (t)

def lowerChars (s : String) : List Char := s.data.map Char.toLower

/-- Condition `{"field": {"$regex": pat, "$options": "i"}}` on a string value. -/
def regexSearchCI (pat subj : String) : Bool :=
  rsearch (compilePattern pat.data) (lowerChars subj)

/-- A `$regex` condition on a document field: a missing or non-string field
never matches. -/
def fieldRegexCI (d : Doc) (f : String) (pat : String) : Bool :=
  match lookupD d f with
  | some (.vStr s) => regexSearchCI pat s
  | _ => false

/-- The spec-side notion for the `q` filter: the pattern occurs as a
case-insensitive substring of the subject. -/
def substrCI (q s : String) : Bool := decide ((lowerChars q) <:+: (lowerChars s))

/-- The spec-side `q` condition on a document field. -/
def substrField (d : Doc) (f : String) (q : String) : Bool :=
  match lookupD d f with
  | some (.vStr s) => substrCI q s
  | _ => false

/-- The metacharacters of the PCRE pattern language: a pattern avoiding all
of these is matched purely literally. -/
def regexMeta (c : Char) : Bool :=
  c ∈ ['.', '^', '$', '*', '+', '?', '(', ')', '[', ']', '{', '}', '|', '\\']

/-- Handler for `GET /api/properties` (src/main.py `list_properties`).  Note the Python
truthiness tests `if q:` / `if city:` / `if furnishing:`, under which an
empty string disables the corresponding filter. -/
def list_properties (s : Sys) (q city furnishing : Option String)
    (min_price max_price : Option Int) (limit : Nat) : List Doc :=
  let qCond : Doc → Bool := fun d =>
    match q with
    | some qs =>
        if qs = "" then true
        else fieldRegexCI d ("title") qs || fieldRegexCI d ("city") qs ||
             fieldRegexCI d ("locality") qs
    | none => true
  let cityCond : Doc → Bool := fun d =>
    match city with
    | some cs => if cs = "" then true else fieldRegexCI d ("city") cs
    | none => true
  let furnCond : Doc → Bool := fun d =>
    match furnishing with
    | some f => if f = "" then true else lookupD d ("furnishing") == some (.vStr f)
    | none => true
  let priceCond : Doc → Bool := fun d =>
    match min_price, max_price with
    | none, none => true
    | mn, mx =>
        match lookupD d ("rent_price") with
        | some (.vInt r) =>
            (match mn with | some a => decide (a ≤ r) | none => true) &&
            (match mx with | some b => decide (r ≤ b) | none => true)
        | _ => false
  ((s.props.filter (fun d => qCond d && cityCond d && furnCond d && priceCond d)).take
    limit).map stringifyId

/-- The value a field has after a `$set`: the supplied value when present,
the prior value otherwise. -/
def applied (o : Option Value) (prior : Option Value) : Option Value :=
  match o with
  | some v => some v
  | none => prior

/-! ### Helper lemmas on documents and updates -/

theorem lookupD_setEntry {β : Type} (d : List (String × β)) (k k' : String) (v : β) :
    List.lookup k' (setEntry d k v) = if k' = k then some v else List.lookup k' d := by
  induction d with
  | nil =>
      by_cases h : k' = k <;>
        simp [setEntry, List.lookup_cons, h, beq_false_of_ne]
  | cons kv t ih =>
      obtain ⟨k0, v0⟩ := kv
      by_cases h0 : k0 = k
      · subst h0
        by_cases h : k' = k0 <;>
          simp [setEntry, List.lookup_cons, h, beq_false_of_ne]
      · by_cases h : k' = k0
        · subst h
          simp [setEntry, h0, List.lookup_cons]
        · simp [setEntry, h0, List.lookup_cons, beq_false_of_ne h, ih]

theorem applySet_nil (d : Doc) : applySet d [] = d := rfl

theorem applySet_cons (d : Doc) (kv : String × Value) (u : Doc) :
    applySet d (kv :: u) = applySet (setEntry d kv.1 kv.2) u := rfl

theorem applySet_append (d : Doc) (u1 u2 : Doc) :
    applySet d (u1 ++ u2) = applySet (applySet d u1) u2 := by
  simp [applySet, List.foldl_append]

theorem lookupD_applySet_notin (u : Doc) (d : Doc) (k : String)
    (h : ∀ p ∈ u, p.1 ≠ k) : lookupD (applySet d u) k = lookupD d k := by
  induction u generalizing d with
  | nil => rfl
  | cons kv t ih =>
      rw [applySet_cons, ih _ (fun p hp => h p (List.mem_cons_of_mem _ hp))]
      have hk : kv.1 ≠ k := h kv (List.mem_cons_self _ _)
      simp [lookupD, lookupD_setEntry, Ne.symm hk]

theorem mem_chunk_key {p : String × Value} {n : String} {o : Option Value}
    (h : p ∈ chunk n o) : p.1 = n := by
  cases o with
  | none => simp [chunk] at h
  | some v => simp [chunk] at h; rw [h]

theorem lookupD_applySet_chunk_eq (d : Doc) (n : String) (o : Option Value) :
    lookupD (applySet d (chunk n o)) n =
      match o with | some v => some v | none => lookupD d n := by
  cases o with
  | none => rfl
  | some v => simp [chunk, applySet, lookupD, lookupD_setEntry]

theorem lookupD_applySet_chunk_ne (d : Doc) (n : String) (o : Option Value)
    (k : String) (h : k ≠ n) : lookupD (applySet d (chunk n o)) k = lookupD d k := by
  cases o with
  | none => rfl
  | some v => simp [chunk, applySet, lookupD, lookupD_setEntry, h]

theorem matchesQuery_applySet (q : PropQuery) (d : Doc) (u : Doc)
    (hid : ∀ p ∈ u, p.1 ≠ "_id") (hpid : ∀ p ∈ u, p.1 ≠ "property_id") :
    matchesQuery q (applySet d u) = matchesQuery q d := by
  cases q with
  | byOid n => simp [matchesQuery, lookupD_applySet_notin u d _ hid]
  | byPid p => simp [matchesQuery, lookupD_applySet_notin u d _ hpid]

theorem findDoc_updateFirst (props : List Doc) (q : PropQuery) (u : Doc) (d : Doc)
    (h : findDoc props q = some d) (hm : matchesQuery q (applySet d u) = true) :
    findDoc (updateFirst props q u) q = some (applySet d u) := by
  induction props with
  | nil => simp [findDoc] at h
  | cons p ps ih =>
      by_cases hp : matchesQuery q p
      · have hd : p = d := by simpa [findDoc, List.find?_cons_of_pos _ hp] using h
        subst hd
        simp [updateFirst, hp, findDoc, List.find?_cons_of_pos _ hm]
      · have h' : findDoc ps q = some d := by
          simpa [findDoc, List.find?_cons_of_neg _ hp] using h
        simp only [updateFirst, if_neg hp, findDoc,
          List.find?_cons_of_neg _ hp]
        simpa [findDoc] using ih h'

theorem deleteFirst_count_zero (props : List Doc) (q : PropQuery) :
    (deleteFirst props q).2 = 0 ↔ findDoc props q = none := by
  induction props with
  | nil => simp [deleteFirst, findDoc]
  | cons p ps ih =>
      by_cases hp : matchesQuery q p
      · simp [deleteFirst, hp, findDoc, List.find?_cons_of_pos _ hp]
      · simp [deleteFirst, hp, findDoc, List.find?_cons_of_neg _ hp] at ih ⊢
        exact ih

/-! ### The regex fragment versus substring search -/

theorem matchHere_nil (s : List Char) : matchHere [] s = true := by
  cases s <;> rfl

theorem matchHere_cons_nil (r : RChar) (ps : List RChar) :
    matchHere (r :: ps) [] = false := by
  cases r <;> rfl

theorem matchHere_lit_cons (c : Char) (ps : List RChar) (x : Char) (xs : List Char) :
    matchHere (RChar.lit c :: ps) (x :: xs) = ((c == x) && matchHere ps xs) := rfl

theorem matchHere_lit (cs : List Char) (s : List Char) :
    matchHere (cs.map RChar.lit) s = cs.isPrefixOf s := by
  induction cs generalizing s with
  | nil => simp [matchHere_nil, List.isPrefixOf]
  | cons c t ih =>
      cases s with
      | nil => simp [matchHere_cons_nil, List.isPrefixOf]
      | cons x xs => simp [matchHere_lit_cons, List.isPrefixOf, ih]

theorem isPrefixOf_eq_decide (p s : List Char) :
    p.isPrefixOf s = decide (p <+: s) := by
  cases hb : p.isPrefixOf s with
  | true =>
      have hp : p <+: s := by simpa using hb
      simp [hp]
  | false =>
      have hp : ¬ p <+: s := by
        intro hp
        have ht : p.isPrefixOf s = true := by simpa using hp
        rw [hb] at ht
        cases ht
      simp [hp]

theorem rsearch_lit (cs : List Char) (s : List Char) :
    rsearch (cs.map RChar.lit) s = decide (cs <:+: s) := by
  induction s with
  | nil =>
      cases cs with
      | nil => simp [rsearch, matchHere_nil]
      | cons c t => simp [rsearch, matchHere_cons_nil]
  | cons x t ih =>
      have hc : decide (cs <:+: x :: t) =
          (decide (cs <+: x :: t) || decide (cs <:+: t)) := by
        by_cases h1 : cs <:+: x :: t
        · rcases List.infix_cons_iff.mp h1 with h2 | h2 <;> simp [h1, h2]
        · have h2 : ¬ cs <+: x :: t := fun hp => h1 hp.isInfix
          have h3 : ¬ cs <:+: t := by
            intro hi
            have h4 : cs <:+: x :: t := List.infix_cons_iff.mpr (Or.inr hi)
            exact h1 h4
          simp [h1, h2, h3]
      rw [rsearch, matchHere_lit, isPrefixOf_eq_decide, ih, hc]

theorem compilePattern_no_meta (p : List Char)
    (h : ∀ c ∈ p, regexMeta c = false) :
    compilePattern p = (p.map Char.toLower).map RChar.lit := by
  induction p with
  | nil => rfl
  | cons c t ih =>
      have hc : c ≠ '.' := by
        intro e
        have := h c (List.mem_cons_self _ _)
        rw [e] at this
        simp [regexMeta] at this
      simp [compilePattern, hc] at ih ⊢
      exact ih (fun c hcm => h c (List.mem_cons_of_mem _ hcm))

theorem regexSearchCI_no_meta (q s : String)
    (h : ∀ c ∈ q.data, regexMeta c = false) :
    regexSearchCI q s = substrCI q s := by
  unfold regexSearchCI substrCI
  rw [compilePattern_no_meta q.data h, rsearch_lit]
  rfl

theorem fieldRegexCI_no_meta (d : Doc) (f : String) (q : String)
    (h : ∀ c ∈ q.data, regexMeta c = false) :
    fieldRegexCI d f q = substrField d f q := by
  unfold fieldRegexCI substrField
  cases lookupD d f with
  | none => rfl
  | some v => cases v <;> simp [regexSearchCI_no_meta _ _ h]

/-! ### Concrete stores and requests used in closed statements -/

/-- A fully populated property document as the create handler stores it. -/
def docA : Doc :=
  [(("_id"), .vOid 0), (("property_id"), .vStr ("p1")), (("title"), .vStr ("T")),
   (("city"), .vStr ("C")), (("locality"), .vStr ("L")),
   (("rent_price"), .vInt 100), (("area_sqft"), .vInt 50),
   (("furnishing"), .vStr ("semi")), (("contact_details"), .vStr ("x")),
   (("image_url"), .vNull), (("owner_id"), .vStr ("o"))]

def s1 : Sys := ⟨1, [docA], [], []⟩

/-- A `property_id` that is also valid ObjectId syntax (24 hex digits). -/
def pidHex : String := "0123456789abcdef01234567"

def docHex : Doc :=
  [(("_id"), .vOid 1), (("property_id"), .vStr pidHex), (("title"), .vStr ("T"))]

def sHex : Sys := ⟨2, [docHex], [], []⟩

def docB : Doc :=
  [(("_id"), .vOid 0), (("property_id"), .vStr ("b1")), (("title"), .vStr ("abc")),
   (("city"), .vStr ("X")), (("locality"), .vStr ("Y"))]

def sB : Sys := ⟨1, [docB], [], []⟩

def payloadA : ContactPayload :=
  ⟨("p1"), ("s1"), ("Sam"), ("sam@example.com"), ("hello"), none⟩

def imgA : Img := ⟨("photo.png"), [1, 2, 3]⟩

/-! ### Claims -/

/-- Claim C2: a create request whose `property_id` equals that of a stored
property fails with Conflict (HTTP 400, "property_id must be unique"), and
the property collection is unchanged by the failed attempt. -/
theorem C2_create_duplicate_conflict (s : Sys)
    (pid title city locality : String) (rent area : Int)
    (furn contact owner : String) (image : Option Img)
    (h : (findDoc s.props (.byPid pid)).isSome = true) :
    (create_property s pid title city locality rent area furn contact owner image).2
        = .error conflictErr
    ∧ (create_property s pid title city locality rent area furn contact owner image).1.props
        = s.props
    ∧ (create_property s pid title city locality rent area furn contact owner image).1.nextId
        = s.nextId
    ∧ (create_property s pid title city locality rent area furn contact owner image).1.contacts
        = s.contacts := by
  cases image <;> simp [create_property, h]

/-- Witness for C2 on a concrete store holding `property_id` "p1". -/
theorem C2_create_duplicate_conflict_w :
    (create_property s1 ("p1") ("t2") ("c2") ("l2") 7 8 ("semi") ("y") ("o2") none).2
        = .error conflictErr
    ∧ (create_property s1 ("p1") ("t2") ("c2") ("l2") 7 8 ("semi") ("y") ("o2") none).1.props
        = s1.props := by
  have h := C2_create_duplicate_conflict s1 ("p1") ("t2") ("c2") ("l2") 7 8
    ("semi") ("y") ("o2") none (by decide)
  exact ⟨h.1, h.2.1⟩

/-- Claim C10: when the create request carries an image and a duplicate
`property_id`, the image bytes are persisted in the upload store under
`property_id + "_" + filename` even though the request fails with Conflict
and no property document is inserted. -/
theorem C10_duplicate_create_persists_image (s : Sys)
    (pid title city locality : String) (rent area : Int)
    (furn contact owner : String) (img : Img)
    (h : (findDoc s.props (.byPid pid)).isSome = true) :
    (create_property s pid title city locality rent area furn contact owner (some img)).2
        = .error conflictErr
    ∧ List.lookup (pid ++ ("_") ++ img.filename)
        (create_property s pid title city locality rent area furn contact owner (some img)).1.uploads
        = some img.content
    ∧ (create_property s pid title city locality rent area furn contact owner (some img)).1.props
        = s.props := by
  simp [create_property, h, lookupD_setEntry]

/-- Witness for C10: duplicate create with an attached image. -/
theorem C10_duplicate_create_persists_image_w :
    (create_property s1 ("p1") ("t2") ("c2") ("l2") 7 8 ("semi") ("y") ("o2") (some imgA)).2
        = .error conflictErr
    ∧ List.lookup (("p1_photo.png"))
        (create_property s1 ("p1") ("t2") ("c2") ("l2") 7 8 ("semi") ("y") ("o2") (some imgA)).1.uploads
        = some imgA.content := by
  have h := C10_duplicate_create_persists_image s1 ("p1") ("t2") ("c2") ("l2") 7 8
    ("semi") ("y") ("o2") imgA (by decide)
  exact ⟨h.1, h.2.1⟩

/-- Claim C9 (amended): a successful create inserts exactly one document,
whose fields are exactly `property_id`, `title`, `city`, `locality`,
`rent_price`, `area_sqft`, `furnishing`, `contact_details`, `image_url`,
`owner_id` and the store identifier `_id`; in particular no `created_at`
or `updated_at` field is set. -/
theorem C9_create_inserted_keys (s : Sys)
    (pid title city locality : String) (rent area : Int)
    (furn contact owner : String) (image : Option Img)
    (h : (findDoc s.props (.byPid pid)).isSome = false) :
    ∃ d, (create_property s pid title city locality rent area furn contact owner image).1.props
          = s.props ++ [d]
      ∧ d.map Prod.fst =
          [("property_id"), ("title"), ("city"), ("locality"), ("rent_price"),
           ("area_sqft"), ("furnishing"), ("contact_details"), ("image_url"),
           ("owner_id"), ("_id")] := by
  cases image with
  | none =>
      simp only [create_property, h]
      simp only [Bool.false_eq_true, if_false]
      exact ⟨_, rfl, rfl⟩
  | some img =>
      simp only [create_property, h]
      simp only [Bool.false_eq_true, if_false]
      exact ⟨_, rfl, rfl⟩

/-- Witness for C9's amended statement: create into the empty store. -/
theorem C9_create_inserted_keys_w :
    ∃ d, (create_property emptySys ("p1") ("t") ("c") ("l") 100 50 ("semi") ("x") ("o1") none).1.props
          = emptySys.props ++ [d]
      ∧ d.map Prod.fst =
          [("property_id"), ("title"), ("city"), ("locality"), ("rent_price"),
           ("area_sqft"), ("furnishing"), ("contact_details"), ("image_url"),
           ("owner_id"), ("_id")] :=
  C9_create_inserted_keys emptySys ("p1") ("t") ("c") ("l") 100 50 ("semi") ("x")
    ("o1") none (by decide)

/-- Counterexample to claim C9 as stated: the document inserted by this
concrete create carries neither a `created_at` nor an `updated_at` field. -/
theorem C9_cex_no_timestamps :
    (create_property emptySys ("p1") ("t") ("c") ("l") 100 50 ("semi") ("x") ("o1") none).1.props.map
        (fun d => (lookupD d ("created_at"), lookupD d ("updated_at")))
      = [(none, none)]
    ∧ (create_property emptySys ("p1") ("t") ("c") ("l") 100 50 ("semi") ("x") ("o1") none).1.props.length
      = 1 := by
  decide

/-- Claim C3 (code evaluation): the create handler performs no range
validation; a request with `rent_price = -1` and `area_sqft = -5` succeeds
and inserts the document with the negative values. -/
theorem C3_negative_values_inserted :
    (create_property emptySys ("p1") ("t") ("c") ("l") (-1) (-5) ("semi") ("x") ("o1") none).1.props
      = [[(("property_id"), .vStr ("p1")), (("title"), .vStr ("t")),
          (("city"), .vStr ("c")), (("locality"), .vStr ("l")),
          (("rent_price"), .vInt (-1)), (("area_sqft"), .vInt (-5)),
          (("furnishing"), .vStr ("semi")), (("contact_details"), .vStr ("x")),
          (("image_url"), Value.vNull), (("owner_id"), .vStr ("o1")),
          (("_id"), Value.vOid 0)]]
    ∧ ((create_property emptySys ("p1") ("t") ("c") ("l") (-1) (-5) ("semi") ("x") ("o1") none).2.toOption.isSome
      = true) := by
  decide

/-- Claim C6: an update request on an existing property that supplies no
fields and no image returns the "No changes" acknowledgment and leaves the
entire state — the stored document included — untouched. -/
theorem C6_update_noop (s : Sys) (pid : String) (existing : Doc)
    (h : findDoc s.props (mkQuery pid) = some existing) :
    update_property s pid none none none none none none none none
      = (s, .ok .noChanges) := by
  simp [update_property, h, chunk]

/-- Witness for C6 on a concrete one-property store. -/
theorem C6_update_noop_w :
    update_property s1 ("p1") none none none none none none none none
      = (s1, .ok .noChanges) :=
  C6_update_noop s1 ("p1") docA (by decide)

/-- Claim C7: a contact request for an unresolvable property fails with
NotFound and inserts nothing; for an existing property (message length
within 1–2000) exactly one ContactMessage document is inserted and the
bare acknowledgment — carrying no inserted identifier — is returned. -/
theorem C7_contact_spec (s : Sys) (pid : String) (payload : ContactPayload)
    (h1 : 1 ≤ payload.message.length) (h2 : payload.message.length ≤ 2000) :
    (findDoc s.props (mkQuery pid) = none →
        contact_owner s pid payload = (s, .error notFoundErr))
    ∧ (∀ d, findDoc s.props (mkQuery pid) = some d →
        (contact_owner s pid payload).1.contacts
            = s.contacts ++ [contactDump payload ++ [(("_id"), Value.vOid s.nextId)]]
          ∧ (contact_owner s pid payload).2 = .ok .sent
          ∧ (contact_owner s pid payload).1.props = s.props) := by
  constructor
  · intro h
    simp [contact_owner, h]
  · intro d h
    simp [contact_owner, h]

/-- Witness for C7: both branches at concrete inputs. -/
theorem C7_contact_spec_w :
    contact_owner s1 ("nope") payloadA = (s1, .error notFoundErr)
    ∧ (contact_owner s1 ("p1") payloadA).1.contacts
        = s1.contacts ++ [contactDump payloadA ++ [(("_id"), Value.vOid s1.nextId)]]
    ∧ (contact_owner s1 ("p1") payloadA).2 = .ok .sent := by
  have ha := (C7_contact_spec s1 ("nope") payloadA (by decide) (by decide)).1 (by decide)
  have hb := (C7_contact_spec s1 ("p1") payloadA (by decide) (by decide)).2 docA (by decide)
  exact ⟨ha, hb.1, hb.2.1⟩

theorem lookupD_applySet_chunk_applied (d : Doc) (n : String) (o : Option Value) :
    lookupD (applySet d (chunk n o)) n = applied o (lookupD d n) :=
  lookupD_applySet_chunk_eq d n o

theorem updates_keys (title city locality : Option String) (rent area : Option Int)
    (furn contact : Option String) :
    ∀ p ∈ chunk ("title") (title.map Value.vStr) ++ chunk ("city") (city.map Value.vStr) ++
        chunk ("locality") (locality.map Value.vStr) ++
        chunk ("rent_price") (rent.map Value.vInt) ++
        chunk ("area_sqft") (area.map Value.vInt) ++
        chunk ("furnishing") (furn.map Value.vStr) ++
        chunk ("contact_details") (contact.map Value.vStr),
      p.1 = ("title") ∨ p.1 = ("city") ∨ p.1 = ("locality") ∨ p.1 = ("rent_price") ∨
      p.1 = ("area_sqft") ∨ p.1 = ("furnishing") ∨ p.1 = ("contact_details") := by
  intro p hp
  simp only [List.mem_append] at hp
  rcases hp with ((((((h | h) | h) | h) | h) | h) | h)
  · exact Or.inl (mem_chunk_key h)
  · exact Or.inr (Or.inl (mem_chunk_key h))
  · exact Or.inr (Or.inr (Or.inl (mem_chunk_key h)))
  · exact Or.inr (Or.inr (Or.inr (Or.inl (mem_chunk_key h))))
  · exact Or.inr (Or.inr (Or.inr (Or.inr (Or.inl (mem_chunk_key h)))))
  · exact Or.inr (Or.inr (Or.inr (Or.inr (Or.inr (Or.inl (mem_chunk_key h))))))
  · exact Or.inr (Or.inr (Or.inr (Or.inr (Or.inr (Or.inr (mem_chunk_key h))))))

theorem updates_ne_nil (title city locality : Option String) (rent area : Option Int)
    (furn contact : Option String)
    (hne : title ≠ none ∨ city ≠ none ∨ locality ≠ none ∨ rent ≠ none ∨
           area ≠ none ∨ furn ≠ none ∨ contact ≠ none) :
    (chunk ("title") (title.map Value.vStr) ++ chunk ("city") (city.map Value.vStr) ++
        chunk ("locality") (locality.map Value.vStr) ++
        chunk ("rent_price") (rent.map Value.vInt) ++
        chunk ("area_sqft") (area.map Value.vInt) ++
        chunk ("furnishing") (furn.map Value.vStr) ++
        chunk ("contact_details") (contact.map Value.vStr)).isEmpty = false := by
  rcases hne with h | h | h | h | h | h | h <;>
    obtain ⟨x, hx⟩ := Option.ne_none_iff_exists'.mp h <;>
    subst hx <;>
    simp [chunk]

/-- Claim C5: an update on an existing property that supplies a subset of
the fields applies exactly the supplied fields; every omitted field of the
stored document keeps its prior value, and the updated document is returned. -/
theorem C5_update_subset_fields (s : Sys) (pid : String)
    (title city locality : Option String) (rent area : Option Int)
    (furn contact : Option String) (existing : Doc)
    (h : findDoc s.props (mkQuery pid) = some existing)
    (hne : title ≠ none ∨ city ≠ none ∨ locality ≠ none ∨ rent ≠ none ∨
           area ≠ none ∨ furn ≠ none ∨ contact ≠ none) :
    ∃ d, (update_property s pid title city locality rent area furn contact none).2
          = .ok (.doc (stringifyId d))
      ∧ findDoc (update_property s pid title city locality rent area furn contact none).1.props
          (mkQuery pid) = some d
      ∧ lookupD d ("title") = applied (title.map Value.vStr) (lookupD existing ("title"))
      ∧ lookupD d ("city") = applied (city.map Value.vStr) (lookupD existing ("city"))
      ∧ lookupD d ("locality") = applied (locality.map Value.vStr) (lookupD existing ("locality"))
      ∧ lookupD d ("rent_price") = applied (rent.map Value.vInt) (lookupD existing ("rent_price"))
      ∧ lookupD d ("area_sqft") = applied (area.map Value.vInt) (lookupD existing ("area_sqft"))
      ∧ lookupD d ("furnishing") = applied (furn.map Value.vStr) (lookupD existing ("furnishing"))
      ∧ lookupD d ("contact_details")
          = applied (contact.map Value.vStr) (lookupD existing ("contact_details"))
      ∧ ∀ k, k ≠ ("title") → k ≠ ("city") → k ≠ ("locality") → k ≠ ("rent_price") →
          k ≠ ("area_sqft") → k ≠ ("furnishing") → k ≠ ("contact_details") →
          lookupD d k = lookupD existing k := by
  have hkeys := updates_keys title city locality rent area furn contact
  have hnotid : ∀ p ∈ chunk ("title") (title.map Value.vStr) ++
      chunk ("city") (city.map Value.vStr) ++
      chunk ("locality") (locality.map Value.vStr) ++
      chunk ("rent_price") (rent.map Value.vInt) ++
      chunk ("area_sqft") (area.map Value.vInt) ++
      chunk ("furnishing") (furn.map Value.vStr) ++
      chunk ("contact_details") (contact.map Value.vStr), p.1 ≠ ("_id") := by
    intro p hp
    rcases hkeys p hp with h' | h' | h' | h' | h' | h' | h' <;> rw [h'] <;> decide
  have hnotpid : ∀ p ∈ chunk ("title") (title.map Value.vStr) ++
      chunk ("city") (city.map Value.vStr) ++
      chunk ("locality") (locality.map Value.vStr) ++
      chunk ("rent_price") (rent.map Value.vInt) ++
      chunk ("area_sqft") (area.map Value.vInt) ++
      chunk ("furnishing") (furn.map Value.vStr) ++
      chunk ("contact_details") (contact.map Value.vStr), p.1 ≠ ("property_id") := by
    intro p hp
    rcases hkeys p hp with h' | h' | h' | h' | h' | h' | h' <;> rw [h'] <;> decide
  have hmatch : matchesQuery (mkQuery pid)
      (applySet existing (chunk ("title") (title.map Value.vStr) ++
        chunk ("city") (city.map Value.vStr) ++
        chunk ("locality") (locality.map Value.vStr) ++
        chunk ("rent_price") (rent.map Value.vInt) ++
        chunk ("area_sqft") (area.map Value.vInt) ++
        chunk ("furnishing") (furn.map Value.vStr) ++
        chunk ("contact_details") (contact.map Value.vStr))) = true := by
    rw [matchesQuery_applySet _ _ _ hnotid hnotpid]
    exact List.find?_some h
  have hfind2 := findDoc_updateFirst s.props (mkQuery pid) _ existing h hmatch
  have hne' := updates_ne_nil title city locality rent area furn contact hne
  refine ⟨applySet existing (chunk ("title") (title.map Value.vStr) ++
      chunk ("city") (city.map Value.vStr) ++
      chunk ("locality") (locality.map Value.vStr) ++
      chunk ("rent_price") (rent.map Value.vInt) ++
      chunk ("area_sqft") (area.map Value.vInt) ++
      chunk ("furnishing") (furn.map Value.vStr) ++
      chunk ("contact_details") (contact.map Value.vStr)),
    ?_, ?_, ?_, ?_, ?_, ?_, ?_, ?_, ?_, ?_⟩
  · simp only [update_property, h, hne', Bool.false_eq_true, if_false, hfind2]
  · simp only [update_property, h, hne', Bool.false_eq_true, if_false, hfind2]
  · simp [applySet_append, lookupD_applySet_chunk_applied, lookupD_applySet_chunk_ne]
  · simp [applySet_append, lookupD_applySet_chunk_applied, lookupD_applySet_chunk_ne]
  · simp [applySet_append, lookupD_applySet_chunk_applied, lookupD_applySet_chunk_ne]
  · simp [applySet_append, lookupD_applySet_chunk_applied, lookupD_applySet_chunk_ne]
  · simp [applySet_append, lookupD_applySet_chunk_applied, lookupD_applySet_chunk_ne]
  · simp [applySet_append, lookupD_applySet_chunk_applied, lookupD_applySet_chunk_ne]
  · simp [applySet_append, lookupD_applySet_chunk_applied, lookupD_applySet_chunk_ne]
  · intro k h1 h2 h3 h4 h5 h6 h7
    refine lookupD_applySet_notin _ existing k ?_
    intro p hp
    rcases hkeys p hp with h' | h' | h' | h' | h' | h' | h'
    · exact fun e => h1 (h'.symm.trans e).symm
    · exact fun e => h2 (h'.symm.trans e).symm
    · exact fun e => h3 (h'.symm.trans e).symm
    · exact fun e => h4 (h'.symm.trans e).symm
    · exact fun e => h5 (h'.symm.trans e).symm
    · exact fun e => h6 (h'.symm.trans e).symm
    · exact fun e => h7 (h'.symm.trans e).symm

/-- Witness for C5: updating only `rent_price` to 5000 on a concrete store
sets that field and leaves `title` (and the rest) at its prior value. -/
theorem C5_update_subset_fields_w :
    ∃ d, (update_property s1 ("p1") none none none (some 5000) none none none none).2
          = .ok (.doc (stringifyId d))
      ∧ findDoc (update_property s1 ("p1") none none none (some 5000) none none none none).1.props
          (mkQuery ("p1")) = some d
      ∧ lookupD d ("rent_price")
          = applied ((some (5000 : Int)).map Value.vInt) (lookupD docA ("rent_price"))
      ∧ lookupD d ("title") = applied ((none : Option String).map Value.vStr) (lookupD docA ("title")) := by
  obtain ⟨d, h1, h2, h3, h4, h5, h6, h7, h8, h9, h10⟩ :=
    C5_update_subset_fields s1 ("p1") none none none (some 5000) none none none docA
      (by decide) (by simp)
  exact ⟨d, h1, h2, h6, h3⟩

/-- Counterexample to claim C1 as stated: `pidHex` is valid identifier
syntax, the store-identifier lookup finds no match, and a stored property
carries exactly this `property_id` — yet the lookup fails with NotFound
instead of falling back to the `property_id` resolution. -/
theorem C1_cex_no_fallback_on_miss :
    get_property sHex pidHex = .error notFoundErr
    ∧ (∃ d ∈ sHex.props, lookupD d ("property_id") = some (.vStr pidHex)) := by
  constructor
  · rfl
  · exact ⟨docHex, by decide, by decide⟩

/-- Claim C1 (amended): each of get/delete/contact/update resolves through
the single resolver `resolveProp` and fails with NotFound exactly when it
returns nothing; the resolver consults `property_id` only when the
identifier is not valid ObjectId syntax — with valid syntax the outcome is
decided solely by the store-identifier comparison, with no fallback on a
missed match. -/
theorem C1_lookup_resolution (s : Sys) (pid : String) (payload : ContactPayload) :
    (get_property s pid = .error notFoundErr ↔ resolveProp s pid = none)
    ∧ ((delete_property s pid).2 = .error notFoundErr ↔ resolveProp s pid = none)
    ∧ ((contact_owner s pid payload).2 = .error notFoundErr ↔ resolveProp s pid = none)
    ∧ ((update_property s pid none none none none none none none none).2
        = .error notFoundErr ↔ resolveProp s pid = none)
    ∧ (∀ n, parseObjectId pid = some n →
        (resolveProp s pid = none ↔
          ∀ d ∈ s.props, ¬ lookupD d ("_id") = some (.vOid n)))
    ∧ (parseObjectId pid = none →
        (resolveProp s pid = none ↔
          ∀ d ∈ s.props, ¬ lookupD d ("property_id") = some (.vStr pid))) := by
  refine ⟨?_, ?_, ?_, ?_, ?_, ?_⟩
  · cases hr : resolveProp s pid <;> simp [get_property, hr, notFoundErr]
  · by_cases hz : (deleteFirst s.props (mkQuery pid)).2 = 0
    · simp [delete_property, hz, resolveProp,
        (deleteFirst_count_zero s.props (mkQuery pid)).mp hz]
    · have hne : findDoc s.props (mkQuery pid) ≠ none :=
        fun hn => hz ((deleteFirst_count_zero _ _).mpr hn)
      simp [delete_property, hz, resolveProp, hne]
  · cases hr : findDoc s.props (mkQuery pid) <;>
      simp [contact_owner, hr, resolveProp]
  · cases hr : findDoc s.props (mkQuery pid) <;>
      simp [update_property, hr, resolveProp, chunk]
  · intro n hn
    simp [resolveProp, findDoc, mkQuery, hn, matchesQuery]
  · intro hn
    simp [resolveProp, findDoc, mkQuery, hn, matchesQuery]

/-- Witness for C1's amended statement at concrete inputs: valid-syntax
identifier with no `_id` match (no fallback), and a plain business key on
the empty store. -/
theorem C1_lookup_resolution_w :
    get_property sHex pidHex = .error notFoundErr
    ∧ (delete_property emptySys ("p9")).2 = .error notFoundErr := by
  constructor
  · exact (C1_lookup_resolution sHex pidHex payloadA).1.mpr (by decide)
  · exact (C1_lookup_resolution emptySys ("p9") payloadA).2.1.mpr (by decide)

/-- Counterexample to claim C4 as stated: with `q = "a.c"` the list
endpoint returns the stored property titled "abc", although "a.c" is not a
case-insensitive substring of any of its title/city/locality — the filter
treats `q` as a regular expression, where `.` matches any character. -/
theorem C4_cex_regex_not_substring :
    list_properties sB (some ("a.c")) none none none none 100 = [stringifyId docB]
    ∧ substrField docB ("title") ("a.c") = false
    ∧ substrField docB ("city") ("a.c") = false
    ∧ substrField docB ("locality") ("a.c") = false
    ∧ sB.props = [docB] := by
  decide

/-- Claim C4 (amended): the `q` filter is a case-insensitive *regular
expression* search over title/city/locality; for every non-empty `q`
containing no regex metacharacter it coincides with case-insensitive
substring search, so only then is the returned list exactly the stored
properties with a substring match. -/
theorem C4_list_q_literal (s : Sys) (q : String) (limit : Nat)
    (h0 : ¬ q = ("")) (hm : ∀ c ∈ q.data, regexMeta c = false) :
    list_properties s (some q) none none none none limit
      = ((s.props.filter (fun d =>
            substrField d ("title") q || substrField d ("city") q ||
            substrField d ("locality") q)).take limit).map stringifyId := by
  have key : ∀ d f, fieldRegexCI d f q = substrField d f q :=
    fun d f => fieldRegexCI_no_meta d f q hm
  simp only [list_properties, if_neg h0]
  simp [key]

/-- Witness for C4's amended statement: a metacharacter-free query on a
concrete store. -/
theorem C4_list_q_literal_w :
    list_properties sB (some ("bc")) none none none none 100
      = ((sB.props.filter (fun d =>
            substrField d ("title") ("bc") || substrField d ("city") ("bc") ||
            substrField d ("locality") ("bc"))).take 100).map stringifyId :=
  C4_list_q_literal sB ("bc") 100 (by decide) (by decide)
